import Mathlib

/-!
Verification of the db-builder ER-diagram extraction service
(`src/backend/ai/main.py`).

The development shallowly embeds the core of the service:

* the image normalizer `process_image` together with a model of the PIL
  operations it invokes and of Python's dynamic `sum` built-in;
* the pydantic schema type model (`Column`, `Table`, `Relationship`,
  `DatabaseSchema`) as validators from a JSON value type;
* instructor's bounded validation-retry protocol for the structured
  extraction stage (`max_retries=2`);
* the `generate_schema` boundary endpoint with the two external model
  calls passed in as function parameters (test doubles), instrumented
  with a call log so that invocation counts are observable.
-/

namespace DBBuilder

/-! ### Python dynamic-value model -/

/-- A Python value returned by PIL's `getpixel`: a scalar integer for a
single-band image, a tuple of band values for a multi-band image. -/
inductive PyVal where
  | int : Nat → PyVal
  | tuple : List Nat → PyVal
deriving DecidableEq

/-- Models Python's built-in `sum` applied to a pixel value: summing a tuple
iterates its elements, while applying `sum` to a plain `int` raises
`TypeError: 'int' object is not iterable`. -/
def pySum : PyVal → Except String Nat
  | PyVal.int _ => Except.error "TypeError: 'int' object is not iterable"
  | PyVal.tuple xs => Except.ok xs.sum

/-! ### PIL image model

Bytes are modelled as `List Nat` (each entry one octet).  A decodable image
container is modelled abstractly: a magic prefix, width, height, then
`3*w*h` channel octets row-major.  All PIL operations used by the source are
given executable models. -/

/-- A decoded image in RGB mode (result of `Image.open(...).convert("RGB")`):
row-major list of (R,G,B) pixels. -/
structure RGBImage where
  width : Nat
  height : Nat
  data : List (Nat × Nat × Nat)
deriving DecidableEq

/-- A single-band grayscale image (PIL mode "L"). -/
structure GrayImage where
  data : List Nat
deriving DecidableEq

/-- Groups a flat list of channel octets into RGB triples. -/
def chunkRGB : List Nat → List (Nat × Nat × Nat)
  | r :: g :: b :: rest => (r, g, b) :: chunkRGB rest
  | _ => []

/-- Models `Image.open(io.BytesIO(bytes)).convert("RGB")`: decodes a
recognized raster container into RGB pixels and fails
(`UnidentifiedImageError`) on anything else.  The container format is
abstracted to a magic prefix `[137,80,78,71]`, the dimensions, then the
channel octets. -/
def decodeImage (bs : List Nat) : Option RGBImage :=
  match bs with
  | 137 :: 80 :: 78 :: 71 :: w :: h :: rest =>
      if rest.length = 3 * w * h ∧ 0 < w ∧ 0 < h ∧ rest.all (fun v => v < 256) then
        some ⟨w, h, chunkRGB rest⟩
      else none
  | _ => none

/-- ITU-R 601-2 luminance used by PIL for `convert("L")`:
`L = R*299/1000 + G*587/1000 + B*114/1000`. -/
def luminance (p : Nat × Nat × Nat) : Nat :=
  (p.1 * 299 + p.2.1 * 587 + p.2.2 * 114) / 1000

/-- Models `image.convert("L")`. -/
def RGBImage.convertL (img : RGBImage) : GrayImage :=
  ⟨img.data.map luminance⟩

/-- Models `image.resize((1,1))` on a grayscale image: the single output
pixel is the average of the input pixels. -/
def GrayImage.resize1x1 (img : GrayImage) : GrayImage :=
  ⟨[img.data.sum / img.data.length]⟩

/-- Models `image.getpixel((0,0))` on a single-band image: PIL returns the
scalar pixel value (an `int`), not a tuple — tuples are returned only for
multi-band images. -/
def GrayImage.getpixel00 (img : GrayImage) : PyVal :=
  PyVal.int (img.data.headD 0)

/-- Models `image.getpixel((0,0))` on an RGB image: a 3-tuple of band
values. -/
def RGBImage.getpixel00 (img : RGBImage) : PyVal :=
  match img.data.headD (0, 0, 0) with
  | (r, g, b) => PyVal.tuple [r, g, b]

/-- Models `ImageOps.invert`: every channel value `v` becomes `255 - v`. -/
def invertImage (img : RGBImage) : RGBImage :=
  ⟨img.width, img.height, img.data.map (fun p => (255 - p.1, 255 - p.2.1, 255 - p.2.2))⟩

/-- Linear histogram stretch of one channel onto the full 0..255 range; a
constant channel is left unchanged (as PIL's `autocontrast` does when the
histogram has a single occupied bin). -/
def stretchVal (lo hi v : Nat) : Nat :=
  if hi ≤ lo then v else (v - lo) * 255 / (hi - lo)

/-- Models `ImageOps.autocontrast` (cutoff 0): each channel is remapped so
its minimum goes to 0 and its maximum to 255. -/
def autocontrast (img : RGBImage) : RGBImage :=
  let rs := img.data.map (fun p => p.1)
  let gs := img.data.map (fun p => p.2.1)
  let bs := img.data.map (fun p => p.2.2)
  let rLo := rs.foldr min 255; let rHi := rs.foldr max 0
  let gLo := gs.foldr min 255; let gHi := gs.foldr max 0
  let bLo := bs.foldr min 255; let bHi := bs.foldr max 0
  ⟨img.width, img.height,
    img.data.map (fun p =>
      (stretchVal rLo rHi p.1, stretchVal gLo gHi p.2.1, stretchVal bLo bHi p.2.2))⟩

/-- Models `image.save(buffer, format="PNG")` followed by reading the buffer:
re-encodes the pixels in the lossless container format. -/
def savePNG (img : RGBImage) : List Nat :=
  137 :: 80 :: 78 :: 71 :: img.width :: img.height ::
    (img.data.foldr (fun p acc => p.1 :: p.2.1 :: p.2.2 :: acc) [])

/-! ### base64 model -/

/-- The base64 alphabet. -/
def b64Alphabet : List Char :=
  ['A','B','C','D','E','F','G','H','I','J','K','L','M','N','O','P','Q','R',
   'S','T','U','V','W','X','Y','Z','a','b','c','d','e','f','g','h','i','j',
   'k','l','m','n','o','p','q','r','s','t','u','v','w','x','y','z','0','1',
   '2','3','4','5','6','7','8','9','+','/']

/-- The base64 digit for a 6-bit group. -/
def b64Digit (n : Nat) : Char := b64Alphabet.getD n 'A'

/-- Models `base64.b64encode(bytes).decode("utf-8")`: standard base64 with
padding, three octets at a time. -/
def b64encode : List Nat → String
  | [] => ""
  | [a] =>
      String.mk [b64Digit (a / 4), b64Digit (a % 4 * 16), '=', '=']
  | [a, b] =>
      String.mk [b64Digit (a / 4), b64Digit (a % 4 * 16 + b / 16),
                 b64Digit (b % 16 * 4), '=']
  | a :: b :: c :: rest =>
      String.mk [b64Digit (a / 4), b64Digit (a % 4 * 16 + b / 16),
                 b64Digit (b % 16 * 4 + c / 64), b64Digit (c % 64)]
        ++ b64encode rest

/-! ### The image normalizer `process_image` -/

/-- The body of `process_image`'s `try` block, propagating any Python
exception as `Except.error`: decode, brightness check
(`sum(image.convert("L").resize((1,1)).getpixel((0,0))) < 128`), conditional
inversion, autocontrast, PNG re-encode, base64. -/
def process_image_try (image_bytes : List Nat) : Except String String := do
  let image ← match decodeImage image_bytes with
    | some img => Except.ok img
    | none => Except.error "PIL.UnidentifiedImageError: cannot identify image file"
  let brightness ← pySum image.convertL.resize1x1.getpixel00
  let image := if brightness < 128 then invertImage image else image
  let image := autocontrast image
  Except.ok (b64encode (savePNG image))

/-- `process_image`: runs the `try` block; the bare `except` catches every
exception and falls back to the base64 encoding of the original bytes. -/
def process_image (image_bytes : List Nat) : String :=
  match process_image_try image_bytes with
  | Except.ok s => s
  | Except.error _ => b64encode image_bytes

/-! ### Schema type model (the pydantic models)

The model output is a JSON value; pydantic validation against the declared
models is embedded as executable validators returning `Except`. -/

/-- A JSON value, the shape of the extraction model's raw output. -/
inductive Json where
  | null : Json
  | bool : Bool → Json
  | num : Int → Json
  | str : String → Json
  | arr : List Json → Json
  | obj : List (String × Json) → Json

/-- `SQLiteType = Literal["UUID", "TEXT", "INTEGER", "BOOLEAN", "TIMESTAMP", "JSON"]`. -/
inductive SQLiteType where
  | uuid | text | integer | boolean | timestamp | json
deriving DecidableEq

/-- The literal string of each enumeration member. -/
def SQLiteType.toStr : SQLiteType → String
  | .uuid => "UUID"
  | .text => "TEXT"
  | .integer => "INTEGER"
  | .boolean => "BOOLEAN"
  | .timestamp => "TIMESTAMP"
  | .json => "JSON"

/-- Validation of a string against the `SQLiteType` literal enumeration:
case-sensitive exact match against the six members, anything else rejected. -/
def parseSQLiteType (s : String) : Option SQLiteType :=
  if s = "UUID" then some SQLiteType.uuid
  else if s = "TEXT" then some SQLiteType.text
  else if s = "INTEGER" then some SQLiteType.integer
  else if s = "BOOLEAN" then some SQLiteType.boolean
  else if s = "TIMESTAMP" then some SQLiteType.timestamp
  else if s = "JSON" then some SQLiteType.json
  else none

/-- `Literal["1:1", "1:N", "N:N"]`, the relationship cardinality enumeration. -/
inductive RelType where
  | oneOne | oneMany | manyMany
deriving DecidableEq

/-- The literal string of each relationship-type member. -/
def RelType.toStr : RelType → String
  | .oneOne => "1:1"
  | .oneMany => "1:N"
  | .manyMany => "N:N"

/-- Validation of a string against the relationship-type enumeration. -/
def parseRelType (s : String) : Option RelType :=
  if s = "1:1" then some RelType.oneOne
  else if s = "1:N" then some RelType.oneMany
  else if s = "N:N" then some RelType.manyMany
  else none

/-- The `Column` pydantic model. -/
structure Column where
  name : String
  type : SQLiteType
  is_primary_key : Bool
  is_foreign_key : Bool
deriving DecidableEq

/-- The `Table` pydantic model. -/
structure Table where
  name : String
  columns : List Column
deriving DecidableEq

/-- The `Relationship` pydantic model. -/
structure Relationship where
  from_table : String
  from_column : String
  to_table : String
  to_column : String
  type : RelType
deriving DecidableEq

/-- The `DatabaseSchema` pydantic model, root of the validated output. -/
structure DatabaseSchema where
  tables : List Table
  relationships : List Relationship
deriving DecidableEq

/-- First binding of a key in a JSON object. -/
def lookupField : List (String × Json) → String → Option Json
  | [], _ => none
  | (k, v) :: rest, key => if k = key then some v else lookupField rest key

/-- Validation of a required `str` field. -/
def validateRequiredStr (fields : List (String × Json)) (key : String) :
    Except String String :=
  match lookupField fields key with
  | some (Json.str s) => Except.ok s
  | some _ => Except.error (key ++ ": Input should be a valid string")
  | none => Except.error (key ++ ": Field required")

/-- Validation of an optional `bool` field with default `False`
(`is_primary_key: bool = False`, `is_foreign_key: bool = False`). -/
def validateBoolOpt (fields : List (String × Json)) (key : String) :
    Except String Bool :=
  match lookupField fields key with
  | none => Except.ok false
  | some (Json.bool b) => Except.ok b
  | some _ => Except.error (key ++ ": Input should be a valid boolean")

/-- Validation of one `Column`: `name` required string, `type` required
member of the `SQLiteType` enumeration (exact literal match, no coercion),
key flags optional booleans defaulting to `False`. -/
def validateColumn : Json → Except String Column
  | Json.obj fields =>
    match validateRequiredStr fields "name" with
    | Except.error e => Except.error e
    | Except.ok nm =>
      match lookupField fields "type" with
      | none => Except.error "type: Field required"
      | some (Json.str s) =>
        match parseSQLiteType s with
        | none => Except.error
            ("type: Input should be 'UUID', 'TEXT', 'INTEGER', 'BOOLEAN', 'TIMESTAMP' or 'JSON', got '" ++ s ++ "'")
        | some t =>
          match validateBoolOpt fields "is_primary_key" with
          | Except.error e => Except.error e
          | Except.ok pk =>
            match validateBoolOpt fields "is_foreign_key" with
            | Except.error e => Except.error e
            | Except.ok fk =>
              Except.ok { name := nm, type := t, is_primary_key := pk, is_foreign_key := fk }
      | some _ => Except.error "type: Input should be a valid string"
  | _ => Except.error "Column: Input should be a valid dictionary"

/-- Validation of a list of columns, failing on the first invalid entry. -/
def validateColumns : List Json → Except String (List Column)
  | [] => Except.ok []
  | j :: rest =>
    match validateColumn j with
    | Except.error e => Except.error e
    | Except.ok c =>
      match validateColumns rest with
      | Except.error e => Except.error e
      | Except.ok cs => Except.ok (c :: cs)

/-- Validation of one `Table`: `name` required string, `columns` required
list of valid columns. -/
def validateTable : Json → Except String Table
  | Json.obj fields =>
    match validateRequiredStr fields "name" with
    | Except.error e => Except.error e
    | Except.ok nm =>
      match lookupField fields "columns" with
      | none => Except.error "columns: Field required"
      | some (Json.arr js) =>
        match validateColumns js with
        | Except.error e => Except.error e
        | Except.ok cs => Except.ok { name := nm, columns := cs }
      | some _ => Except.error "columns: Input should be a valid list"
  | _ => Except.error "Table: Input should be a valid dictionary"

/-- Validation of a list of tables. -/
def validateTables : List Json → Except String (List Table)
  | [] => Except.ok []
  | j :: rest =>
    match validateTable j with
    | Except.error e => Except.error e
    | Except.ok t =>
      match validateTables rest with
      | Except.error e => Except.error e
      | Except.ok ts => Except.ok (t :: ts)

/-- Validation of one `Relationship`: four required string endpoints, and a
`type` constrained to the `1:1 | 1:N | N:N` enumeration with default
`"1:N"` when the field is omitted. -/
def validateRelationship : Json → Except String Relationship
  | Json.obj fields =>
    match validateRequiredStr fields "from_table" with
    | Except.error e => Except.error e
    | Except.ok ft =>
      match validateRequiredStr fields "from_column" with
      | Except.error e => Except.error e
      | Except.ok fc =>
        match validateRequiredStr fields "to_table" with
        | Except.error e => Except.error e
        | Except.ok tt =>
          match validateRequiredStr fields "to_column" with
          | Except.error e => Except.error e
          | Except.ok tc =>
            match lookupField fields "type" with
            | none => Except.ok
                { from_table := ft, from_column := fc, to_table := tt,
                  to_column := tc, type := RelType.oneMany }
            | some (Json.str s) =>
              match parseRelType s with
              | none => Except.error
                  ("type: Input should be '1:1', '1:N' or 'N:N', got '" ++ s ++ "'")
              | some rt => Except.ok
                  { from_table := ft, from_column := fc, to_table := tt,
                    to_column := tc, type := rt }
            | some _ => Except.error "type: Input should be a valid string"
  | _ => Except.error "Relationship: Input should be a valid dictionary"

/-- Validation of a list of relationships. -/
def validateRelationships : List Json → Except String (List Relationship)
  | [] => Except.ok []
  | j :: rest =>
    match validateRelationship j with
    | Except.error e => Except.error e
    | Except.ok r =>
      match validateRelationships rest with
      | Except.error e => Except.error e
      | Except.ok rs => Except.ok (r :: rs)

/-- Validation of the root `DatabaseSchema`: required `tables` and
`relationships` lists whose entries all validate. -/
def validateDatabaseSchema : Json → Except String DatabaseSchema
  | Json.obj fields =>
    match lookupField fields "tables" with
    | none => Except.error "tables: Field required"
    | some (Json.arr tjs) =>
      match validateTables tjs with
      | Except.error e => Except.error e
      | Except.ok ts =>
        match lookupField fields "relationships" with
        | none => Except.error "relationships: Field required"
        | some (Json.arr rjs) =>
          match validateRelationships rjs with
          | Except.error e => Except.error e
          | Except.ok rs => Except.ok { tables := ts, relationships := rs }
        | some _ => Except.error "relationships: Input should be a valid list"
    | some _ => Except.error "tables: Input should be a valid list"
  | _ => Except.error "DatabaseSchema: Input should be a valid dictionary"

/-! ### Instructor's bounded validation-retry protocol

The structured-generation call is made through instructor with
`response_model=DatabaseSchema` and `max_retries=2`: one initial attempt,
then on each validation failure a corrective retry, up to `max_retries`
retries beyond the first attempt; exhausting the bound re-raises the last
validation error.  The underlying model is a test double
`brain : Nat → Except String Json` giving, for each call index, either a
transport-level exception or the raw JSON the model produced. -/

/-- The `max_retries=2` argument of the extraction call. -/
def max_retries : Nat := 2

/-- One run of instructor's retry loop: `fuel` is the number of retries
still allowed after the current attempt, `calls` the number of underlying
calls already made.  Returns the total number of calls made together with
the validated schema or the terminal error.  Transport errors from the
underlying call propagate immediately; validation failures consume a retry,
and when no retry remains the last validation error is re-raised. -/
def instructorRun (brain : Nat → Except String Json) :
    Nat → Nat → Nat × Except String DatabaseSchema
  | fuel, calls =>
    match brain calls with
    | Except.error e => (calls + 1, Except.error e)
    | Except.ok j =>
      match validateDatabaseSchema j with
      | Except.ok s => (calls + 1, Except.ok s)
      | Except.error ve =>
        match fuel with
        | 0 => (calls + 1, Except.error ve)
        | fuel' + 1 => instructorRun brain fuel' (calls + 1)

/-! ### The boundary endpoint `generate_schema`

The two external chat-completion services are parameters (test doubles):
`vision` receives the data URL built for the image and yields the free-text
description (or a transport error), `brain` receives the user message built
from the description and the call index and yields the raw extraction
output.  A `CallLog` records the externally observable invocations. -/

/-- An uploaded file: its declared content type and its raw bytes. -/
structure UploadFile where
  content_type : String
  content : List Nat

/-- The FastAPI `HTTPException` carried by an error response. -/
structure HTTPException where
  status_code : Nat
  detail : String
deriving DecidableEq

/-- Log of the calls issued to the external collaborators: the data URLs
passed to the vision model (in order) and the number of underlying calls of
the structured-extraction stage. -/
structure CallLog where
  visionUrls : List String
  brainCalls : Nat
deriving DecidableEq

/-- The content types accepted by the endpoint. -/
def allowed_content_types : List String :=
  ["image/jpeg", "image/png", "image/webp"]

/-- The `POST /generate-schema` handler: rejects a disallowed content type
with `HTTPException(400, "Invalid file type.")` before anything else runs;
otherwise normalizes the image, builds the `data:image/png;base64,...` URL,
issues the vision call, then runs the instructor-guarded extraction call
with `max_retries=2`; any exception inside the `try` block becomes
`HTTPException(500, "Processing failed: " + str(e))`. -/
def generate_schema (vision : String → Except String String)
    (brain : String → Nat → Except String Json) (file : UploadFile) :
    CallLog × Except HTTPException DatabaseSchema :=
  if allowed_content_types.contains file.content_type then
    let content := file.content
    let b64_img := process_image content
    let data_url := "data:image/png;base64," ++ b64_img
    match vision data_url with
    | Except.error e =>
        (⟨[data_url], 0⟩, Except.error ⟨500, "Processing failed: " ++ e⟩)
    | Except.ok description =>
        let userMsg := "Create the schema based on this description:\n\n" ++ description
        match instructorRun (brain userMsg) max_retries 0 with
        | (calls, Except.ok schema) => (⟨[data_url], calls⟩, Except.ok schema)
        | (calls, Except.error e) =>
            (⟨[data_url], calls⟩, Except.error ⟨500, "Processing failed: " ++ e⟩)
  else
    (⟨[], 0⟩, Except.error ⟨400, "Invalid file type."⟩)

/-! ### Test doubles (concrete collaborators used in witnesses) -/

/-- Vision-call double that always succeeds with a fixed description. -/
def visionOkDouble : String → Except String String :=
  fun _ => Except.ok "two tables with one relationship"

/-- Vision-call double that always fails with a transport error. -/
def visionErrDouble : String → Except String String :=
  fun _ => Except.error "HTTP 503 from upstream"

/-- Extraction double that always returns the same invalid shape: an empty
JSON object, missing the required `tables` and `relationships` fields. -/
def alwaysInvalidBrain : Nat → Except String Json :=
  fun _ => Except.ok (Json.obj [])

/-- Two-argument extraction double (prompt, call index) that ignores the
prompt and always returns the invalid shape. -/
def brainInvalidDouble : String → Nat → Except String Json :=
  fun _ => alwaysInvalidBrain

/-! ## Helper lemmas -/

/-- For every decoded image the brightness expression applies `sum` to the
scalar returned by `getpixel` on the single-band downsampled image, so it
raises `TypeError`; together with the decode-failure case, the `try` block
of `process_image` always lands in the `except` fallback. -/
theorem process_image_eq (bs : List Nat) : process_image bs = b64encode bs := by
  unfold process_image process_image_try
  cases h : decodeImage bs with
  | none => simp [h, Bind.bind, Except.bind]
  | some img => simp [h, pySum, GrayImage.getpixel00, Bind.bind, Except.bind]

/-- The first component of `instructorRun` (the number of underlying calls
made) exceeds the starting count by at most `fuel + 1`. -/
theorem instructorRun_fst_le (brain : Nat → Except String Json) :
    ∀ fuel calls, (instructorRun brain fuel calls).1 ≤ calls + fuel + 1 := by
  intro fuel
  induction fuel with
  | zero =>
    intro calls
    unfold instructorRun
    cases hb : brain calls with
    | error e => simp [hb]
    | ok j =>
      cases hv : validateDatabaseSchema j with
      | ok s => simp [hb, hv]
      | error ve => simp [hb, hv]
  | succ f ih =>
    intro calls
    unfold instructorRun
    cases hb : brain calls with
    | error e => simp [hb]
    | ok j =>
      cases hv : validateDatabaseSchema j with
      | ok s => simp [hb, hv]
      | error ve =>
        simp only [hb, hv]
        exact (ih (calls + 1)).trans (by omega)

/-- A schema returned by `instructorRun` is exactly the validated form of
one of the underlying model outputs. -/
theorem instructorRun_ok_sound (brain : Nat → Except String Json) :
    ∀ fuel calls s, (instructorRun brain fuel calls).2 = Except.ok s →
      ∃ i j, brain i = Except.ok j ∧ validateDatabaseSchema j = Except.ok s := by
  intro fuel
  induction fuel with
  | zero =>
    intro calls s h
    unfold instructorRun at h
    cases hb : brain calls with
    | error e => simp [hb] at h
    | ok j =>
      cases hv : validateDatabaseSchema j with
      | error ve => simp [hb, hv] at h
      | ok s0 =>
        simp [hb, hv] at h
        exact ⟨calls, j, hb, h ▸ hv⟩
  | succ f ih =>
    intro calls s h
    unfold instructorRun at h
    cases hb : brain calls with
    | error e => simp [hb] at h
    | ok j =>
      cases hv : validateDatabaseSchema j with
      | ok s0 =>
        simp [hb, hv] at h
        exact ⟨calls, j, hb, h ▸ hv⟩
      | error ve =>
        simp only [hb, hv] at h
        exact ih (calls + 1) s h

/-! ## Claims -/

/-- C8: For every input byte sequence — including valid, decodable bright or
dark images — `process_image` returns exactly the base64 encoding of the
original unmodified input bytes: the brightness check applies `sum()` to the
single integer pixel value of the grayscale-converted image, which raises
`TypeError`, so the inversion, contrast-stretch, and PNG re-encode path is
unreachable and the exception fallback branch is taken on every call. -/
theorem process_image_always_fallback (bs : List Nat) :
    process_image bs = b64encode bs :=
  process_image_eq bs

/-- C3: whenever the body of `process_image`'s `try` block raises (corrupt
bytes, non-image bytes, or the internal `TypeError`), the exception is
caught and the function returns the base64 encoding of the original
unmodified bytes instead of an error. -/
theorem process_image_never_raises (bs : List Nat) (e : String)
    (h : process_image_try bs = Except.error e) :
    process_image bs = b64encode bs := by
  unfold process_image
  rw [h]

/-- Witness for C3: the corrupt three-byte sequence `[1, 2, 3]` is not a
decodable image, the `try` block raises, and the fallback returns the
original bytes base64-encoded. -/
theorem process_image_never_raises_witness :
    process_image [1, 2, 3] = b64encode [1, 2, 3] :=
  process_image_never_raises [1, 2, 3]
    "PIL.UnidentifiedImageError: cannot identify image file" rfl

/-- C2 counterexample record: the bytes `[137,80,78,71,1,1,10,10,10]` decode
to a 1x1 image with RGB value (10,10,10), whose single-pixel luminance 10 is
far below the dark threshold 128 — yet `process_image` returns the base64 of
the original bytes, not the base64 of the inverted and contrast-stretched
PNG the specification requires: the brightness check raises `TypeError`
before the inversion can run. -/
theorem dark_image_not_inverted :
    decodeImage [137, 80, 78, 71, 1, 1, 10, 10, 10] =
      some ⟨1, 1, [(10, 10, 10)]⟩ ∧
    luminance (10, 10, 10) < 128 ∧
    process_image [137, 80, 78, 71, 1, 1, 10, 10, 10] =
      b64encode [137, 80, 78, 71, 1, 1, 10, 10, 10] ∧
    process_image [137, 80, 78, 71, 1, 1, 10, 10, 10] ≠
      b64encode (savePNG (autocontrast (invertImage ⟨1, 1, [(10, 10, 10)]⟩))) := by
  refine ⟨by decide, by decide, process_image_eq _, by decide⟩

/-- An accepted string parses to the member whose literal is that exact
string: `parseSQLiteType` never maps a string to a member with a different
literal. -/
theorem parseSQLiteType_toStr (s : String) (t : SQLiteType)
    (h : parseSQLiteType s = some t) : t.toStr = s := by
  unfold parseSQLiteType at h
  split_ifs at h <;> simp_all [SQLiteType.toStr] <;> subst h <;> rfl

/-- An accepted relationship-type string parses to the member whose literal
is that exact string. -/
theorem parseRelType_toStr (s : String) (t : RelType)
    (h : parseRelType s = some t) : t.toStr = s := by
  unfold parseRelType at h
  split_ifs at h <;> simp_all [RelType.toStr] <;> subst h <;> rfl

/-- Characterization of a successful `Column` validation: each field of the
result comes from the corresponding field validator. -/
theorem validateColumn_ok (fields : List (String × Json)) (c : Column)
    (h : validateColumn (Json.obj fields) = Except.ok c) :
    validateRequiredStr fields "name" = Except.ok c.name ∧
    (∃ s, lookupField fields "type" = some (Json.str s) ∧
      parseSQLiteType s = some c.type) ∧
    validateBoolOpt fields "is_primary_key" = Except.ok c.is_primary_key ∧
    validateBoolOpt fields "is_foreign_key" = Except.ok c.is_foreign_key := by
  unfold validateColumn at h
  cases hn : validateRequiredStr fields "name" with
  | error e => simp [hn] at h
  | ok nm =>
    cases hl : lookupField fields "type" with
    | none => simp [hn, hl] at h
    | some jt =>
      cases jt with
      | str s =>
        cases hp : parseSQLiteType s with
        | none => simp [hn, hl, hp] at h
        | some t =>
          cases hpk : validateBoolOpt fields "is_primary_key" with
          | error e => simp [hn, hl, hp, hpk] at h
          | ok pk =>
            cases hfk : validateBoolOpt fields "is_foreign_key" with
            | error e => simp [hn, hl, hp, hpk, hfk] at h
            | ok fk =>
              simp [hn, hl, hp, hpk, hfk] at h
              subst h
              exact ⟨rfl, ⟨s, rfl, hp⟩, rfl, rfl⟩
      | null => simp [hn, hl] at h
      | bool b => simp [hn, hl] at h
      | num n => simp [hn, hl] at h
      | arr js => simp [hn, hl] at h
      | obj fs => simp [hn, hl] at h

/-- Characterization of a successful `Relationship` validation: the `type`
field is either absent (and the result holds the default `1:N`) or a string
accepted by the enumeration. -/
theorem validateRelationship_ok (fields : List (String × Json)) (r : Relationship)
    (h : validateRelationship (Json.obj fields) = Except.ok r) :
    (lookupField fields "type" = none ∧ r.type = RelType.oneMany) ∨
    (∃ s, lookupField fields "type" = some (Json.str s) ∧
      parseRelType s = some r.type) := by
  unfold validateRelationship at h
  cases h1 : validateRequiredStr fields "from_table" with
  | error e => simp [h1] at h
  | ok ft =>
    cases h2 : validateRequiredStr fields "from_column" with
    | error e => simp [h1, h2] at h
    | ok fc =>
      cases h3 : validateRequiredStr fields "to_table" with
      | error e => simp [h1, h2, h3] at h
      | ok tt =>
        cases h4 : validateRequiredStr fields "to_column" with
        | error e => simp [h1, h2, h3, h4] at h
        | ok tc =>
          cases hl : lookupField fields "type" with
          | none =>
            simp [h1, h2, h3, h4, hl] at h
            subst h
            exact Or.inl ⟨rfl, rfl⟩
          | some jt =>
            cases jt with
            | str s =>
              cases hp : parseRelType s with
              | none => simp [h1, h2, h3, h4, hl, hp] at h
              | some rt =>
                simp [h1, h2, h3, h4, hl, hp] at h
                subst h
                exact Or.inr ⟨s, rfl, hp⟩
            | null => simp [h1, h2, h3, h4, hl] at h
            | bool b => simp [h1, h2, h3, h4, hl] at h
            | num n => simp [h1, h2, h3, h4, hl] at h
            | arr js => simp [h1, h2, h3, h4, hl] at h
            | obj fs => simp [h1, h2, h3, h4, hl] at h

/-- C4: schema validation accepts an output only if every Column and
Relationship `type` field equals one of the literal enumerated values by
case-sensitive exact match; any other string (for example a column of type
"FLOAT") is rejected as invalid, never silently coerced. -/
theorem type_fields_exact_enumeration :
    (∀ fields c, validateColumn (Json.obj fields) = Except.ok c →
      ∃ s, lookupField fields "type" = some (Json.str s) ∧
        parseSQLiteType s = some c.type ∧ c.type.toStr = s) ∧
    (∃ e, validateColumn
        (Json.obj [("name", Json.str "price"), ("type", Json.str "FLOAT")]) =
      Except.error e) ∧
    (∀ fields r, validateRelationship (Json.obj fields) = Except.ok r →
      lookupField fields "type" = none ∨
      ∃ s, lookupField fields "type" = some (Json.str s) ∧
        parseRelType s = some r.type ∧ r.type.toStr = s) := by
  refine ⟨?_, ?_, ?_⟩
  · intro fields c h
    obtain ⟨-, ⟨s, hl, hp⟩, -, -⟩ := validateColumn_ok fields c h
    exact ⟨s, hl, hp, parseSQLiteType_toStr s c.type hp⟩
  · exact ⟨"type: Input should be 'UUID', 'TEXT', 'INTEGER', 'BOOLEAN', 'TIMESTAMP' or 'JSON', got 'FLOAT'", rfl⟩
  · intro fields r h
    rcases validateRelationship_ok fields r h with ⟨hl, -⟩ | ⟨s, hl, hp⟩
    · exact Or.inl hl
    · exact Or.inr ⟨s, hl, hp, parseRelType_toStr s r.type hp⟩

/-- Witness for C4: a column whose `type` is the literal `"TEXT"` validates
to the `TEXT` member, and the lowercase/foreign literal `"FLOAT"` is
rejected. -/
theorem type_fields_exact_enumeration_witness :
    ∃ s, lookupField [("name", Json.str "email"), ("type", Json.str "TEXT")] "type" =
        some (Json.str s) ∧
      parseSQLiteType s = some SQLiteType.text ∧ SQLiteType.text.toStr = s :=
  type_fields_exact_enumeration.1
    [("name", Json.str "email"), ("type", Json.str "TEXT")]
    ⟨"email", SQLiteType.text, false, false⟩ rfl

/-- C7: a Relationship's `type` field only ever holds one of the three
values `1:1`, `1:N`, `N:N`, and when the model output omits the field,
validation accepts the object and fills in the default `1:N`. -/
theorem relationship_type_enum_and_default :
    (∀ fields r, validateRelationship (Json.obj fields) = Except.ok r →
      (r.type = RelType.oneOne ∨ r.type = RelType.oneMany ∨ r.type = RelType.manyMany) ∧
      (lookupField fields "type" = none → r.type = RelType.oneMany)) ∧
    (∀ ft fc tt tc, validateRelationship
        (Json.obj [("from_table", Json.str ft), ("from_column", Json.str fc),
                   ("to_table", Json.str tt), ("to_column", Json.str tc)]) =
      Except.ok ⟨ft, fc, tt, tc, RelType.oneMany⟩) := by
  constructor
  · intro fields r h
    refine ⟨by cases r.type <;> simp, ?_⟩
    intro hnone
    rcases validateRelationship_ok fields r h with ⟨-, hd⟩ | ⟨s, hl, -⟩
    · exact hd
    · rw [hnone] at hl; exact Option.noConfusion hl
  · intro ft fc tt tc
    simp [validateRelationship, validateRequiredStr, lookupField]

/-- Witness for C7: a concrete relationship object with the `type` field
present as `"N:N"`, and one with the field omitted taking the default. -/
theorem relationship_type_enum_and_default_witness :
    (Relationship.mk "orders" "user_id" "users" "id" RelType.manyMany).type = RelType.oneOne ∨
    (Relationship.mk "orders" "user_id" "users" "id" RelType.manyMany).type = RelType.oneMany ∨
    (Relationship.mk "orders" "user_id" "users" "id" RelType.manyMany).type = RelType.manyMany :=
  (relationship_type_enum_and_default.1
    [("from_table", Json.str "orders"), ("from_column", Json.str "user_id"),
     ("to_table", Json.str "users"), ("to_column", Json.str "id"),
     ("type", Json.str "N:N")]
    ⟨"orders", "user_id", "users", "id", RelType.manyMany⟩ rfl).1

/-- C10: if the extraction model's output omits a Column's `is_primary_key`
or `is_foreign_key` field, validation accepts the column and fills the
missing flag with `False`; an omitted boolean flag is never a validation
error. -/
theorem omitted_key_flags_default_false :
    (∀ fields c, validateColumn (Json.obj fields) = Except.ok c →
      (lookupField fields "is_primary_key" = none → c.is_primary_key = false) ∧
      (lookupField fields "is_foreign_key" = none → c.is_foreign_key = false)) ∧
    (∀ nm s t, parseSQLiteType s = some t →
      validateColumn (Json.obj [("name", Json.str nm), ("type", Json.str s)]) =
        Except.ok ⟨nm, t, false, false⟩) := by
  constructor
  · intro fields c h
    obtain ⟨-, -, hpk, hfk⟩ := validateColumn_ok fields c h
    constructor
    · intro hnone
      unfold validateBoolOpt at hpk
      rw [hnone] at hpk
      simpa using hpk.symm
    · intro hnone
      unfold validateBoolOpt at hfk
      rw [hnone] at hfk
      simpa using hfk.symm
  · intro nm s t hp
    simp [validateColumn, validateRequiredStr, validateBoolOpt, lookupField, hp]

/-- Witness for C10: a column object carrying only `name` and `type`
validates successfully with both key flags defaulted to `False`. -/
theorem omitted_key_flags_default_false_witness :
    validateColumn (Json.obj [("name", Json.str "id"), ("type", Json.str "UUID")]) =
      Except.ok ⟨"id", SQLiteType.uuid, false, false⟩ :=
  omitted_key_flags_default_false.2 "id" "UUID" SQLiteType.uuid rfl

/-- C1: the structured-generation stage makes at most 3 total attempts per
request (one initial call plus up to `max_retries = 2` retries on validation
failure); a double that always returns an invalid shape is invoked exactly 3
times and the run then surfaces the last validation error (validation
exhaustion), not an unrelated error. -/
theorem extraction_attempt_bound :
    (∀ brain : Nat → Except String Json,
      (instructorRun brain max_retries 0).1 ≤ 3) ∧
    (∀ brain : Nat → Except String Json,
      (∀ i, ∃ j e, brain i = Except.ok j ∧ validateDatabaseSchema j = Except.error e) →
      (instructorRun brain max_retries 0).1 = 3 ∧
      ∃ j e, brain 2 = Except.ok j ∧ validateDatabaseSchema j = Except.error e ∧
        (instructorRun brain max_retries 0).2 = Except.error e) := by
  constructor
  · intro brain
    simpa [max_retries] using instructorRun_fst_le brain max_retries 0
  · intro brain h
    obtain ⟨j0, e0, hb0, hv0⟩ := h 0
    obtain ⟨j1, e1, hb1, hv1⟩ := h 1
    obtain ⟨j2, e2, hb2, hv2⟩ := h 2
    have hrun : instructorRun brain max_retries 0 = (3, Except.error e2) := by
      show instructorRun brain 2 0 = (3, Except.error e2)
      unfold instructorRun
      simp only [hb0, hv0]
      unfold instructorRun
      simp only [hb1, hv1]
      unfold instructorRun
      simp only [hb2, hv2]
    exact ⟨by rw [hrun], j2, e2, hb2, hv2, by rw [hrun]⟩

/-- Witness for C1: with the always-invalid double the run makes exactly 3
calls and terminates with the (validation) error of the third output. -/
theorem extraction_attempt_bound_witness :
    (instructorRun alwaysInvalidBrain max_retries 0).1 = 3 ∧
    ∃ j e, alwaysInvalidBrain 2 = Except.ok j ∧
      validateDatabaseSchema j = Except.error e ∧
      (instructorRun alwaysInvalidBrain max_retries 0).2 = Except.error e :=
  extraction_attempt_bound.2 alwaysInvalidBrain
    (fun _ => ⟨Json.obj [], "tables: Field required", rfl, rfl⟩)

/-- C5: an upload whose content type is not `image/jpeg`, `image/png` or
`image/webp` is rejected with `HTTPException(400, "Invalid file type.")`
before any pipeline stage runs: the call log shows zero vision calls and
zero extraction calls, and the body is never touched. -/
theorem invalid_content_type_rejected_first
    (vision : String → Except String String)
    (brain : String → Nat → Except String Json) (file : UploadFile)
    (h : allowed_content_types.contains file.content_type = false) :
    generate_schema vision brain file =
      (⟨[], 0⟩, Except.error ⟨400, "Invalid file type."⟩) := by
  unfold generate_schema
  rw [h]
  rfl

/-- Witness for C5: a `text/plain` upload is rejected with the 400 error and
both upstream doubles receive zero invocations. -/
theorem invalid_content_type_rejected_first_witness :
    generate_schema visionOkDouble brainInvalidDouble ⟨"text/plain", [1, 2, 3]⟩ =
      (⟨[], 0⟩, Except.error ⟨400, "Invalid file type."⟩) :=
  invalid_content_type_rejected_first visionOkDouble brainInvalidDouble
    ⟨"text/plain", [1, 2, 3]⟩ rfl

/-- C6: every outcome of the boundary operation is either a fully validated
`DatabaseSchema` (exactly the validated form of one extraction output) or a
single error shape: the 400 invalid-file rejection or a 500 with a
human-readable "Processing failed: ..." message; no partial or degraded
schema and no internal error type crosses the boundary. -/
theorem boundary_single_error_shape
    (vision : String → Except String String)
    (brain : String → Nat → Except String Json) (file : UploadFile) :
    (∀ e, (generate_schema vision brain file).2 = Except.error e →
      (e.status_code = 400 ∧ e.detail = "Invalid file type.") ∨
      (e.status_code = 500 ∧ ∃ m, e.detail = "Processing failed: " ++ m)) ∧
    (∀ s, (generate_schema vision brain file).2 = Except.ok s →
      ∃ msg i j, brain msg i = Except.ok j ∧
        validateDatabaseSchema j = Except.ok s) := by
  unfold generate_schema
  cases hct : allowed_content_types.contains file.content_type with
  | false =>
    simp only [Bool.false_eq_true, if_false]
    constructor
    · intro e he
      simp at he
      subst he
      exact Or.inl ⟨rfl, rfl⟩
    · intro s hs
      simp at hs
  | true =>
    simp only [if_true]
    cases hv : vision ("data:image/png;base64," ++ process_image file.content) with
    | error e =>
      constructor
      · intro e' he
        simp at he
        subst he
        exact Or.inr ⟨rfl, e, rfl⟩
      · intro s hs
        simp at hs
    | ok description =>
      dsimp only
      cases hr : instructorRun
          (brain ("Create the schema based on this description:\n\n" ++ description))
          max_retries 0 with
      | mk calls res =>
        cases res with
        | ok schema =>
          constructor
          · intro e' he
            simp at he
          · intro s hs
            simp at hs
            subst hs
            exact ⟨"Create the schema based on this description:\n\n" ++ description,
              instructorRun_ok_sound _ max_retries 0 schema (by rw [hr])⟩
        | error e =>
          constructor
          · intro e' he
            simp at he
            subst he
            exact Or.inr ⟨rfl, e, rfl⟩
          · intro s hs
            simp at hs

/-- Witness for C6: with a failing vision double the caller sees exactly the
500 "Processing failed: ..." shape. -/
theorem boundary_single_error_shape_witness :
    (HTTPException.mk 500 "Processing failed: HTTP 503 from upstream").status_code = 400 ∧
      (HTTPException.mk 500 "Processing failed: HTTP 503 from upstream").detail = "Invalid file type." ∨
    (HTTPException.mk 500 "Processing failed: HTTP 503 from upstream").status_code = 500 ∧
      ∃ m, (HTTPException.mk 500 "Processing failed: HTTP 503 from upstream").detail =
        "Processing failed: " ++ m :=
  (boundary_single_error_shape visionErrDouble brainInvalidDouble
      ⟨"image/png", [1, 2, 3]⟩).1
    ⟨500, "Processing failed: HTTP 503 from upstream"⟩ rfl

/-- C9: for every accepted upload the data URL handed to the vision call
declares the media type `image/png` — and carries the original upload bytes
base64-encoded — even when the uploaded file was `image/jpeg` or
`image/webp` and its bytes were never converted to PNG. -/
theorem vision_url_always_declares_png
    (vision : String → Except String String)
    (brain : String → Nat → Except String Json) (file : UploadFile)
    (h : allowed_content_types.contains file.content_type = true) :
    (generate_schema vision brain file).1.visionUrls =
      ["data:image/png;base64," ++ b64encode file.content] := by
  unfold generate_schema
  rw [h]
  simp only [if_true]
  rw [process_image_eq]
  cases hv : vision ("data:image/png;base64," ++ b64encode file.content) with
  | error e => rfl
  | ok description =>
    dsimp only
    cases instructorRun
        (brain ("Create the schema based on this description:\n\n" ++ description))
        max_retries 0 with
    | mk calls res => cases res <;> rfl

/-- Witness for C9: a JPEG upload (raw JPEG SOI bytes, never converted)
still produces a data URL declaring `image/png`. -/
theorem vision_url_always_declares_png_witness :
    (generate_schema visionOkDouble brainInvalidDouble
        ⟨"image/jpeg", [255, 216, 255, 224]⟩).1.visionUrls =
      ["data:image/png;base64," ++ b64encode [255, 216, 255, 224]] :=
  vision_url_always_declares_png visionOkDouble brainInvalidDouble
    ⟨"image/jpeg", [255, 216, 255, 224]⟩ rfl

end DBBuilder
